import Mathlib

/-!
Verification of the `hence` task-orchestration core (src/hence.py) against its
specification.  The Python source is shallowly embedded: Python dicts become
string-keyed partial maps, callables become Lean functions returning
`Except PyErr PyVal`, and exception-raising code returns `Except`.
The third-party `paradag.dag_run` traversal (not part of this repository)
is modelled from the specification's executor contract (spec §4.4).
-/

set_option maxHeartbeats 1000000

/-- Left curly brace character, used by the title placeholder syntax. -/
def lbrace : Char := Char.ofNat 123

/-- Right curly brace character, used by the title placeholder syntax. -/
def rbrace : Char := Char.ofNat 125

/-- Python's `c in s` membership test for a single character, taken over
the string's character list (kernel-reducible, which `String.contains`'s
byte-position recursion is not). -/
def strHasChar (s : String) (c : Char) : Bool := s.data.contains c

/-- Python runtime values that flow through the orchestrator (parameter
values and callable results).  `none` is Python's `None`, the initial
value of a descriptor's result slot. -/
inductive PyVal where
  | none
  | str (s : String)
  | int (n : Int)
deriving Repr, DecidableEq

/-- Python exceptions raised by the embedded code.  `keyError` carries the
missing key (Python `KeyError(key)`); the other constructors carry the
message. -/
inductive PyErr where
  | valueError (msg : String)
  | typeError (msg : String)
  | keyError (key : String)
  | runtimeError (msg : String)
  | attributeError (msg : String)
  | indexError (msg : String)
deriving Repr, DecidableEq

/-- A keyword-argument mapping (`dict` of parameters), as an association
list of names to values. -/
def Params : Type := List (String × PyVal)

instance : DecidableEq Params := by
  unfold Params
  infer_instance

/-- A Python function object: its `__name__` and its behaviour when called
with keyword arguments (raising is modelled by `Except.error`). -/
structure PyFunc where
  name : String
  call : Params → Except PyErr PyVal

/-- A Python object as it appears in the pipeline's input pairs: either a
function or a plain dict (`zip_longest`'s `fillvalue={}` pads with a dict,
which is not callable and has no `__name__`). -/
inductive PyObj where
  | func (f : PyFunc)
  | dict (entries : Params)

/-- A string-keyed Python dict, as a partial map.  The registry tables only
ever read dicts by key, so insertion order is irrelevant here. -/
def Dict (α : Type) : Type := String → Option α

/-- `d[k] = v` on a Python dict: plain assignment, overwriting any previous
entry for `k`. -/
def Dict.insert {α : Type} (d : Dict α) (k : String) (v : α) : Dict α :=
  fun k' => if k' = k then some v else d k'

/-- The empty dict. -/
def Dict.empty {α : Type} : Dict α := fun _ => none

/-- `TaskConfig` (src/hence.py lines 39-85): one schedulable unit.  The
field set mirrors the attributes assigned in `__init__`; `parameters` is
the `immutabledict` copy of the argument dict and `result` starts as
`None`. -/
structure TaskConfig where
  function : PyFunc
  parameters : Params
  run_id : String
  seq_id : String
  title : String
  result : PyVal

/-- `TaskConfig.task_key` (lines 59-71): `functionName.seqId`, with
`.runId` appended when the run id is non-empty.  The `if not
self.function` guard is unreachable (a function object is always truthy),
and `cached_property` caching is observationally pure because neither
`function`, `seq_id` nor `run_id` is ever mutated after construction. -/
def TaskConfig.task_key (tc : TaskConfig) : String :=
  let k := tc.function.name ++ "." ++ tc.seq_id
  if tc.run_id = "" then k else k ++ "." ++ tc.run_id

/-- The three tables of one registry scope, as created by
`HenceContext._setup_context` (lines 171-182): task descriptors (`func`),
group membership (`group`) and display titles (`title`). -/
structure ContextData where
  funcs : Dict TaskConfig
  groups : Dict (List PyObj)
  titles : Dict String

/-- A scope with three empty tables — the `ContextVar` default value. -/
def emptyCtxData : ContextData :=
  { funcs := Dict.empty, groups := Dict.empty, titles := Dict.empty }

/-- The three kinds of object accepted by `context_add`: `TaskConfig`,
`TitleConfig` (its `task_key`/`title` fields) and `GroupConfig` (its
`title`/`function` fields). -/
inductive CtxObj where
  | taskC (tc : TaskConfig)
  | titleC (task_key : String) (title : String)
  | groupC (title : String) (function : PyObj)

/-- The table mutation performed by `HenceContext.context_add` (lines
184-206) on the scope's dict.  A `TaskConfig` is stored with plain dict
assignment `context_val[CTX_FN_BASE][obj.task_key] = obj` — an existing
entry under the same key is overwritten, no duplicate check is made.  A
`TitleConfig` likewise overwrites.  A `GroupConfig` appends the function
to the group's list, creating the list on first use.  The `isinstance`
type check is discharged by typing. -/
def contextAddObj (ctx : ContextData) : CtxObj → ContextData
  | .taskC tc => { ctx with funcs := ctx.funcs.insert tc.task_key tc }
  | .titleC k t => { ctx with titles := ctx.titles.insert k t }
  | .groupC g f =>
      match ctx.groups g with
      | Option.none => { ctx with groups := ctx.groups.insert g [f] }
      | some fs => { ctx with groups := ctx.groups.insert g (fs ++ [f]) }

/-- `HenceContext.context_get(CTX_TI_BASE, name)` (lines 208-227)
specialised to the title table: raises `KeyError` when the key is absent.
Callers always pass a function's `__name__`, which Python guarantees
non-empty, so the whole-table branch for an empty `obj_key` is not
reachable from here. -/
def contextGetTitle (titles : Dict String) (name : String) : Except PyErr String :=
  match titles name with
  | Option.none => .error (.keyError name)
  | some t => .ok t

/-- `HenceContext.context_get(CTX_FN_BASE, task_key)` specialised to the
task table: raises `KeyError` when the key is absent.  Task keys always
contain a dot, hence are non-empty. -/
def contextGetTask (funcs : Dict TaskConfig) (key : String) : Except PyErr TaskConfig :=
  match funcs key with
  | Option.none => .error (.keyError key)
  | some c => .ok c

/-- `RunLevelContext.__setitem__` (lines 91-100): rejects a duplicate key
with `ValueError("TaskConfig exists.")`, otherwise stores the item.  (The
`isinstance` check is discharged by typing.)  Note: this class is defined
in the source but never instantiated by the registry — `context_add` uses
plain dicts. -/
def runLevelSetitem (data : Dict TaskConfig) (key : String) (item : TaskConfig) :
    Except PyErr (Dict TaskConfig) :=
  if (data key).isSome then .error (.valueError "TaskConfig exists.")
  else .ok (data.insert key item)

/-- `TaskConfig.__init__` (lines 42-57): rejects an empty sequence id,
then evaluates `fn.__name__` (a dict, as supplied by `zip_longest`
padding, has no `__name__` — `AttributeError`), looks the function's
title up in the current scope (`context_get` raises `KeyError` when no
title was registered), and falls back to the function's own name only
when the registered title is falsy (the empty string).  The result slot
starts as `None`. -/
def mkTaskConfig (ctx : ContextData) (fn : PyObj) (params : Params)
    (rid : String) (sid : String) : Except PyErr TaskConfig :=
  if sid = "" then .error (.valueError "Sequence id empty.")
  else
    match fn with
    | .dict _ => .error (.attributeError "dict object has no attribute __name__")
    | .func f =>
      match contextGetTitle ctx.titles f.name with
      | .error e => .error e
      | .ok t =>
        .ok { function := f, parameters := params, run_id := rid, seq_id := sid,
              title := if t = "" then f.name else t, result := PyVal.none }

/-- Core of Python `str.format` as used for titles (src/hence.py lines
398-404): scan the character list, replacing each `\x7bname\x7d` field by
the bound value, raising `KeyError(name)` for an unknown name, treating
doubled braces as escapes and a lone brace as a `ValueError`.  `mode` is
`none` outside a replacement field and `some acc` inside one, with `acc`
holding the field-name characters read so far, in reverse.  Only simple
named fields are modelled (no auto-numbering, conversion or format
spec), which covers the full syntax the four recognised names use. -/
def formatScanM (fields : List (String × String)) :
    Option (List Char) → List Char → Except PyErr (List Char)
  | Option.none, [] => .ok []
  | some _, [] => .error (.valueError "Single left brace encountered in format string")
  | some acc, c :: rest =>
      if c = rbrace then
        match fields.lookup (String.mk acc.reverse) with
        | Option.none => .error (.keyError (String.mk acc.reverse))
        | some v =>
          match formatScanM fields Option.none rest with
          | .error e => .error e
          | .ok out => .ok (v.data ++ out)
      else formatScanM fields (some (c :: acc)) rest
  | Option.none, c :: rest =>
      if c = lbrace then
        match rest with
        | [] => .error (.valueError "Single left brace encountered in format string")
        | c2 :: rest2 =>
          if c2 = lbrace then
            match formatScanM fields Option.none rest2 with
            | .error e => .error e
            | .ok out => .ok (lbrace :: out)
          else if c2 = rbrace then
            match fields.lookup "" with
            | Option.none => .error (.keyError "")
            | some v =>
              match formatScanM fields Option.none rest2 with
              | .error e => .error e
              | .ok out => .ok (v.data ++ out)
          else formatScanM fields (some [c2]) rest2
      else if c = rbrace then
        match rest with
        | [] => .error (.valueError "Single right brace encountered in format string")
        | c2 :: rest2 =>
          if c2 = rbrace then
            match formatScanM fields Option.none rest2 with
            | .error e => .error e
            | .ok out => .ok (rbrace :: out)
          else .error (.valueError "Single right brace encountered in format string")
      else
        match formatScanM fields Option.none rest with
        | .error e => .error e
        | .ok out => .ok (c :: out)

/-- `title.format(...)` on a whole string. -/
def pyFormat (s : String) (fields : List (String × String)) : Except PyErr String :=
  match formatScanM fields Option.none s.data with
  | .error e => .error e
  | .ok out => .ok (String.mk out)

/-- The exactly four keyword bindings passed to `t_title.format(...)` in
`FunctionTypeExecutor.execute` (lines 399-404): full key, function name,
run id and sequence id of the descriptor. -/
def fourFields (c : TaskConfig) : List (String × String) :=
  [("fn_key", c.task_key), ("fn_name", c.function.name),
   ("fn_run_id", c.run_id), ("fn_seq_id", c.seq_id)]

/-- `FunctionTypeExecutor.execute` (lines 388-414): look the descriptor up
by key; when the title contains both braces, render it with the four
recognised fields (a `KeyError` is re-raised unchanged), store the
rendered title back via `context_add`, then call the underlying function
with the descriptor's parameters.  Returns the possibly-mutated scope
together with the call's outcome. -/
def executorExecute (ctx : ContextData) (task_key : String) :
    ContextData × Except PyErr PyVal :=
  match contextGetTask ctx.funcs task_key with
  | .error e => (ctx, .error e)
  | .ok cfg =>
    if strHasChar cfg.title lbrace && strHasChar cfg.title rbrace then
      match pyFormat cfg.title (fourFields cfg) with
      | .error e => (ctx, .error e)
      | .ok t2 =>
        let cfg2 := { cfg with title := t2 }
        (contextAddObj ctx (.taskC cfg2), cfg2.function.call cfg2.parameters)
    else (ctx, cfg.function.call cfg.parameters)

/-- `FunctionTypeExecutor.report_finish` (lines 416-424): takes the batch
of `(vertex, result)` pairs that completed in the current traversal step,
reads only `vertices_result[0]` (an empty batch would raise
`IndexError`), writes that vertex's result into its descriptor and stores
it back via `context_add`. -/
def report_finish (ctx : ContextData) (vertices_result : List (String × PyVal)) :
    Except PyErr ContextData :=
  match vertices_result with
  | [] => .error (.indexError "list index out of range")
  | (fn_key, fn_result) :: _ =>
    match contextGetTask ctx.funcs fn_key with
    | .error e => .error e
    | .ok fn_obj =>
      .ok (contextAddObj ctx (.taskC { fn_obj with result := fn_result }))

/-- A directed graph as built by `setup_dag`: the vertex list passed to
`add_vertex(*vertices)` and the edge list built by `add_edge` calls. -/
structure DAG where
  vertices : List String
  edges : List (String × String)

/-- `setup_dag` (lines 336-346): add every key as a vertex, then for each
index from 1 to len-1 add the edge from the previous element to the
current one. -/
def setup_dag (vertices : List String) : DAG :=
  { vertices := vertices
  , edges := ((List.range vertices.length).drop 1).map
      (fun i => (vertices.getD (i - 1) "", vertices.getD i "")) }

/-- Outcome of one `dag_run` traversal: the scope after the run, the
vertices processed in order, and the exception that aborted the run, if
any. -/
structure RunOutcome where
  ctx : ContextData
  processed : List String
  error : Option PyErr

/-- Modelled from the spec: the traversal loop of `paradag.dag_run` with
`SequentialProcessor` (an external library; spec §4.4).  Traversal
respects topological order and for the linear-chain graphs built by
`setup_dag` the topological order is exactly the vertex-list order, each
traversal step completing the single ready vertex.  Each step selects the
vertex (`param(vertex) = vertex`), executes it, reports the completed
batch `[(vertex, result)]` to the executor's completion hook, and
accumulates the processed vertices in order; on any exception the run
aborts with no further vertex dispatched. -/
def dagRunChain (ctx : ContextData) : List String → RunOutcome
  | [] => { ctx := ctx, processed := [], error := Option.none }
  | k :: rest =>
    match executorExecute ctx k with
    | (ctx1, .error e) => { ctx := ctx1, processed := [], error := some e }
    | (ctx1, .ok v) =>
      match report_finish ctx1 [(k, v)] with
      | .error e => { ctx := ctx1, processed := [], error := some e }
      | .ok ctx2 =>
        let out := dagRunChain ctx2 rest
        { ctx := out.ctx, processed := k :: out.processed, error := out.error }

/-- Modelled from the spec: `paradag.dag_run` on a `setup_dag` graph
returns the processed vertices in execution order (spec §6: `runTasks`
"returns the keys in execution order"). -/
def dag_run (d : DAG) (ctx : ContextData) : RunOutcome :=
  dagRunChain ctx d.vertices

/-- `execute_dag` (lines 349-359): the `isinstance` guard always passes
for a graph built by `setup_dag`, so this is `dag_run` with the
`SequentialProcessor` and `FunctionTypeExecutor` strategies. -/
def execute_dag (d : DAG) (ctx : ContextData) : RunOutcome :=
  dag_run d ctx

/-- The descriptor-building loop of `run_tasks` (lines 293-307): for each
`(callable, params)` pair in order, build a `TaskConfig` with sequence id
`str(index)` and the given run id, add it to the current scope (plain
dict assignment — see `contextAddObj`), and collect its task key.  Any
exception aborts the loop, keeping the scope mutations already made.
The `len > 2` guard of the source concerns tuples of more than two
elements, which the pair type rules out here. -/
def buildTaskList (ctx : ContextData) (runId : String) (idx : Nat) :
    List (PyObj × Params) → ContextData × Except PyErr (List String)
  | [] => (ctx, .ok [])
  | (fn, params) :: rest =>
    match mkTaskConfig ctx fn params runId (toString idx) with
    | .error e => (ctx, .error e)
    | .ok cfg =>
      let ctx1 := contextAddObj ctx (.taskC cfg)
      match buildTaskList ctx1 runId (idx + 1) rest with
      | (ctx2, .error e) => (ctx2, .error e)
      | (ctx2, .ok keys) => (ctx2, .ok (cfg.task_key :: keys))

/-- `run_tasks` (lines 290-314): build one descriptor per pair (sequence
id = position index), fail with `TypeError` when the list is empty, then
build the linear-chain graph over the collected keys and execute it,
returning the processed keys; an exception during execution propagates
to the caller.  The pair `(scope after the call, outcome)` is returned so
that the persisted registry state is observable. -/
def run_tasks (ctx : ContextData) (fn_config_list : List (PyObj × Params))
    (run_id : String) : ContextData × Except PyErr (List String) :=
  match buildTaskList ctx run_id 0 fn_config_list with
  | (ctx1, .error e) => (ctx1, .error e)
  | (ctx1, .ok fn_list) =>
    if fn_list.isEmpty then
      (ctx1, .error (.typeError "fn_list does not contain any task."))
    else
      let out := execute_dag (setup_dag fn_list) ctx1
      match out.error with
      | some e => (out.ctx, .error e)
      | Option.none => (out.ctx, .ok out.processed)

/-- `itertools.zip_longest(callables, task_params, fillvalue=empty dict)`
as used by `run_group` (lines 325-331): pads the shorter side with the
empty dict — an empty parameter mapping on the right, a non-callable dict
object on the left. -/
def zipLongestGroup : List PyObj → List Params → List (PyObj × Params)
  | [], ps => ps.map (fun p => (PyObj.dict [], p))
  | f :: fs, [] => (f, []) :: zipLongestGroup fs []
  | f :: fs, p :: ps => (f, p) :: zipLongestGroup fs ps

/-- `run_group` (lines 317-333): read the whole group table
(`context_get(CTX_GR_BASE)` — the table always exists), fail with
`RuntimeError` when the group id is unknown, then pair the group's
callables with the supplied parameter list via `zip_longest` and run
them as a plain task list with the group id as run id. -/
def run_group (ctx : ContextData) (group_id : String) (task_params : List Params) :
    ContextData × Except PyErr (List String) :=
  match ctx.groups group_id with
  | Option.none =>
      (ctx, .error (.runtimeError ("group " ++ group_id ++ " is not found.")))
  | some fns => run_tasks ctx (zipLongestGroup fns task_params) group_id

/-- The process-wide `HenceContext` (lines 161-237): a `ContextVar` whose
default value is one shared scope dict.  Per Python's `contextvars`
semantics, `context.get()` in a logical context returns that context's
own value only if `set` was called there; otherwise it returns the single
shared default object.  `hence` never calls `set`, and `context_add`
mutates the returned dict in place, so mutations made without a prior
`set` land in the shared default.  `perCtx` maps a logical-context id to
its own value, when one was ever set. -/
structure HenceContext where
  defaultCtx : ContextData
  perCtx : Nat → Option ContextData

/-- A freshly constructed `HenceContext` (`_setup_context`, lines
171-182): empty default tables, no per-context value set anywhere. -/
def freshHence : HenceContext :=
  { defaultCtx := emptyCtxData, perCtx := fun _ => Option.none }

/-- `self.context.get()` as seen from logical context `cid`. -/
def henceCtxVal (h : HenceContext) (cid : Nat) : ContextData :=
  (h.perCtx cid).getD h.defaultCtx

/-- `HenceContext.context_add` called from logical context `cid`: mutate
in place the dict that `context.get()` returned — the context's own value
if one was set there, otherwise the shared default. -/
def henceContextAdd (h : HenceContext) (cid : Nat) (obj : CtxObj) : HenceContext :=
  match h.perCtx cid with
  | some d =>
      { h with perCtx := fun c => if c = cid then some (contextAddObj d obj) else h.perCtx c }
  | Option.none => { h with defaultCtx := contextAddObj h.defaultCtx obj }

/-- The key `run_tasks` generates for a function name, sequence id and run
id — the same computation as `TaskConfig.task_key`, stated over the raw
strings so that expected key lists can be written down. -/
def mkKey (name sid rid : String) : String :=
  let k := name ++ "." ++ sid
  if rid = "" then k else k ++ "." ++ rid

/-- The `__name__` of a pipeline input object, with a junk default for the
non-callable dict (used only to state expected key lists; a dict never
reaches key generation because descriptor construction fails first). -/
def pyNameD : PyObj → String
  | .func f => f.name
  | .dict _ => ""

/-- The task keys `run_tasks` generates for a pair list, starting at
sequence index `i`: key `j` is built from pair `j`'s function name with
sequence id `str(i + j)` and the given run id. -/
def genKeys (rid : String) : Nat → List (PyObj × Params) → List String
  | _, [] => []
  | i, p :: rest => mkKey (pyNameD p.1) (toString i) rid :: genKeys rid (i + 1) rest

/-- The title a descriptor ends up with: the registered title unless it is
falsy (empty), in which case the function's own name. -/
def effTitle (t name : String) : String := if t = "" then name else t

/-- A pair that builds and executes cleanly in a given scope: a callable
with a registered title, an effective title without placeholder braces,
and a call that returns normally. -/
def goodPair (titles : Dict String) (p : PyObj × Params) : Prop :=
  ∃ f t v, p.1 = PyObj.func f ∧ titles f.name = some t ∧
    (strHasChar (effTitle t f.name) lbrace && strHasChar (effTitle t f.name) rbrace) = false ∧
    f.call p.2 = Except.ok v

/-- A stored descriptor that executes cleanly: no placeholder braces in
its title and a call that returns normally. -/
def goodCfg (c : TaskConfig) : Prop :=
  (strHasChar c.title lbrace && strHasChar c.title rbrace) = false ∧
  ∃ v, c.function.call c.parameters = Except.ok v

/-- An input object for which descriptor construction succeeds: a callable
whose title is registered in the scope. -/
def buildable (titles : Dict String) (p : PyObj) : Prop :=
  ∃ f t, p = PyObj.func f ∧ titles f.name = some t

/- Concrete fixtures used by witnesses and counterexamples. -/

def fGreet : PyFunc := { name := "greet", call := fun _ => .ok (.str "hi") }

def fShout : PyFunc := { name := "shout", call := fun _ => .error (.valueError "empty name") }

def fThird : PyFunc := { name := "third", call := fun _ => .ok (.int 3) }

def fDup : PyFunc := { name := "dup", call := fun _ => .ok .none }

def fRender : PyFunc := { name := "ft", call := fun _ => .ok .none }

/-- Scope with titles registered for the three demo callables, as the
`@task` decorator would have done at definition time. -/
def ctxThree : ContextData :=
  contextAddObj (contextAddObj (contextAddObj emptyCtxData
    (.titleC "greet" "Greet")) (.titleC "shout" "Shout")) (.titleC "third" "Third")

/-- `ctxThree` with a two-member group `g1` registered. -/
def ctxGroup : ContextData :=
  contextAddObj (contextAddObj ctxThree
    (.groupC "g1" (.func fGreet))) (.groupC "g1" (.func fThird))

def cfgDupA : TaskConfig :=
  { function := fDup, parameters := [("x", .int 1)], run_id := "", seq_id := "0",
    title := "dup", result := .none }

def cfgDupB : TaskConfig :=
  { function := fDup, parameters := [("x", .int 2)], run_id := "", seq_id := "0",
    title := "dup", result := .none }

def ctxDup : ContextData := contextAddObj emptyCtxData (.taskC cfgDupA)

def cfgIso : TaskConfig :=
  { function := fGreet, parameters := [], run_id := "", seq_id := "9",
    title := "greet", result := .none }

def cfgRun1 : TaskConfig :=
  { function := fGreet, parameters := [], run_id := "r", seq_id := "0",
    title := "greet", result := .none }

def cfgRun2 : TaskConfig :=
  { function := fShout, parameters := [], run_id := "r", seq_id := "1",
    title := "shout", result := .none }

def cfgRun3 : TaskConfig :=
  { function := fThird, parameters := [], run_id := "r", seq_id := "2",
    title := "third", result := .none }

/-- Scope holding the three run descriptors, keyed `greet.0.r`,
`shout.1.r`, `third.2.r`. -/
def ctxRun : ContextData :=
  contextAddObj (contextAddObj (contextAddObj emptyCtxData
    (.taskC cfgRun1)) (.taskC cfgRun2)) (.taskC cfgRun3)

def cfgChainA : TaskConfig :=
  { function := fGreet, parameters := [], run_id := "", seq_id := "0",
    title := "greet", result := .none }

def cfgRenderBad : TaskConfig :=
  { function := fRender, parameters := [], run_id := "", seq_id := "1",
    title := "X {bogus}", result := .none }

/-- Scope for the C7 witness: a clean first task `greet.0` and a second
task `ft.1` whose title names an unrecognised placeholder. -/
def ctxRender : ContextData :=
  contextAddObj (contextAddObj emptyCtxData (.taskC cfgChainA)) (.taskC cfgRenderBad)

def cfgNine1 : TaskConfig :=
  { function := fGreet, parameters := [], run_id := "r", seq_id := "0",
    title := "A", result := .none }

def cfgNine2 : TaskConfig :=
  { function := fThird, parameters := [], run_id := "r", seq_id := "1",
    title := "B", result := .none }

/-- Scope for the C9 batch theorems: two descriptors `greet.0.r` and
`third.1.r`, both with empty result slots. -/
def ctxNine : ContextData :=
  contextAddObj (contextAddObj emptyCtxData (.taskC cfgNine1)) (.taskC cfgNine2)

/- Basic lemmas about the dict model and `context_add`. -/

theorem Dict.insert_self {α : Type} (d : Dict α) (k : String) (v : α) :
    (d.insert k v) k = some v := by
  simp [Dict.insert]

theorem Dict.insert_ne {α : Type} (d : Dict α) (k k' : String) (v : α) (h : k' ≠ k) :
    (d.insert k v) k' = d k' := by
  simp [Dict.insert, h]

theorem contextAddObj_task_funcs (ctx : ContextData) (tc : TaskConfig) :
    (contextAddObj ctx (.taskC tc)).funcs = ctx.funcs.insert tc.task_key tc := rfl

theorem contextAddObj_task_titles (ctx : ContextData) (tc : TaskConfig) :
    (contextAddObj ctx (.taskC tc)).titles = ctx.titles := rfl

theorem contextAddObj_task_groups (ctx : ContextData) (tc : TaskConfig) :
    (contextAddObj ctx (.taskC tc)).groups = ctx.groups := rfl

theorem task_key_set_result (c : TaskConfig) (v : PyVal) :
    ({ c with result := v } : TaskConfig).task_key = c.task_key := rfl

/-- Claim C1 counterexample.  The claim says adding a `TaskConfig` whose
key already exists fails with a duplicate-key error and leaves the stored
entry unchanged.  On the code, `context_add` is a plain dict assignment:
here the scope already holds `cfgDupA` under key `dup.0`, adding
`cfgDupB` (same key, different parameters) raises nothing and the stored
entry afterwards is `cfgDupB`, not `cfgDupA` — a silent overwrite. -/
theorem C1_counterexample :
    ctxDup.funcs cfgDupA.task_key = some cfgDupA ∧
    (contextAddObj ctxDup (.taskC cfgDupB)).funcs cfgDupA.task_key = some cfgDupB ∧
    cfgDupB ≠ cfgDupA := by
  refine ⟨rfl, rfl, fun h => ?_⟩
  exact absurd (congrArg TaskConfig.parameters h) (by decide)

/-- Claim C1, amended: adding a `TaskConfig` whose computed key already
exists in the scope's task table never fails — `context_add` silently
overwrites the stored entry (last write wins) and leaves every other key
untouched; the duplicate-key rejection (`ValueError`) exists only in
`RunLevelContext.__setitem__`, a class the registry never uses. -/
theorem C1_context_add_overwrites (ctx : ContextData) (old upd : TaskConfig)
    (hold : ctx.funcs upd.task_key = some old) :
    (contextAddObj ctx (.taskC upd)).funcs upd.task_key = some upd ∧
    (∀ k, k ≠ upd.task_key → (contextAddObj ctx (.taskC upd)).funcs k = ctx.funcs k) ∧
    runLevelSetitem ctx.funcs upd.task_key upd = .error (.valueError "TaskConfig exists.") := by
  refine ⟨Dict.insert_self _ _ _, fun k hk => Dict.insert_ne _ _ _ _ hk, ?_⟩
  simp [runLevelSetitem, hold]

theorem C1_witness :
    (contextAddObj ctxDup (.taskC cfgDupB)).funcs cfgDupB.task_key = some cfgDupB ∧
    runLevelSetitem ctxDup.funcs cfgDupB.task_key cfgDupB =
      .error (.valueError "TaskConfig exists.") :=
  ⟨(C1_context_add_overwrites ctxDup cfgDupA cfgDupB rfl).1,
   (C1_context_add_overwrites ctxDup cfgDupA cfgDupB rfl).2.2⟩

/-- Claim C2.  The claim says registry state is isolated per logical
execution context.  On the code it is not: `HenceContext` never calls
`ContextVar.set`, so every logical context's `context.get()` returns the
single shared default dict, and `context_add` mutates that dict in
place.  Evaluating the code at the failing input: starting from a fresh
`HenceContext`, a title and a task descriptor added from context 1 are
both observable from the distinct context 2, whose "freshly entered"
scope is anything but empty — while a truly fresh `HenceContext` would
show empty tables everywhere. -/
theorem C2_no_scope_isolation :
    (henceCtxVal (henceContextAdd (henceContextAdd freshHence 1
        (.titleC "greet" "Hello")) 1 (.taskC cfgIso)) 2).titles "greet" = some "Hello" ∧
    (henceCtxVal (henceContextAdd (henceContextAdd freshHence 1
        (.titleC "greet" "Hello")) 1 (.taskC cfgIso)) 2).funcs cfgIso.task_key = some cfgIso ∧
    (∀ cid : Nat, henceCtxVal freshHence cid = emptyCtxData) :=
  ⟨rfl, rfl, fun _ => rfl⟩

/-- Claim C6.  The claim (and spec §4.2) says that with no explicit title
registered, descriptor construction succeeds and the title defaults to
the callable's own name.  On the code, `TaskConfig.__init__` calls
`context_get(CTX_TI_BASE, fn.__name__)`, which raises `KeyError` for an
absent key, so construction fails instead.  The fallback
`_title if _title else fn.__name__` on line 56 — the source's own
expression of the intended default — is reachable only when a falsy
(empty) title was explicitly registered, as the second conjunct shows. -/
theorem C6_default_title_unreachable :
    mkTaskConfig emptyCtxData (.func fDup) [] "" "0" = .error (.keyError "dup") ∧
    (mkTaskConfig (contextAddObj emptyCtxData (.titleC "dup" "")) (.func fDup) [] "" "0").map
      (fun c => c.title) = .ok "dup" :=
  ⟨rfl, rfl⟩

/-- Claim C9 counterexample.  The claim says the completion hook persists
the result of every vertex completed in the step, even for a batch of
more than one vertex.  On the code, `report_finish` reads only
`vertices_result[0]`: with the two-element batch below, `greet.0.r`'s
result is persisted but `third.1.r`'s result slot is still `None`
afterwards — the second completed vertex's result is dropped. -/
theorem C9_counterexample :
    (report_finish ctxNine [("greet.0.r", .int 7), ("third.1.r", .int 8)]).map
      (fun c => ((c.funcs "greet.0.r").map TaskConfig.result,
                 (c.funcs "third.1.r").map TaskConfig.result)) =
      .ok (some (.int 7), some PyVal.none) := rfl

/-- Claim C9, amended: after each traversal step the completion hook
persists exactly the first completed vertex of the batch — that vertex's
descriptor gets its result slot set, every other key (including the rest
of the batch) is left unchanged.  Under the sequential strategy every
batch is a singleton, so there no completed vertex's result is
dropped. -/
theorem C9_report_finish_first_only (ctx : ContextData) (k : String) (r : PyVal)
    (rest : List (String × PyVal)) (cfg : TaskConfig)
    (hk : ctx.funcs k = some cfg) (hkey : cfg.task_key = k) :
    report_finish ctx ((k, r) :: rest) =
      .ok (contextAddObj ctx (.taskC { cfg with result := r })) ∧
    (contextAddObj ctx (.taskC { cfg with result := r })).funcs k =
      some { cfg with result := r } ∧
    (∀ k', k' ≠ k → (contextAddObj ctx (.taskC { cfg with result := r })).funcs k' =
      ctx.funcs k') := by
  refine ⟨?_, ?_, ?_⟩
  · simp [report_finish, contextGetTask, hk]
  · rw [contextAddObj_task_funcs, task_key_set_result, hkey]
    exact Dict.insert_self _ _ _
  · intro k' hk'
    rw [contextAddObj_task_funcs, task_key_set_result, hkey]
    exact Dict.insert_ne _ _ _ _ hk'

theorem C9_witness :
    report_finish ctxNine [("greet.0.r", .int 7), ("third.1.r", .int 8)] =
      .ok (contextAddObj ctxNine (.taskC { cfgNine1 with result := .int 7 })) ∧
    (contextAddObj ctxNine (.taskC { cfgNine1 with result := .int 7 })).funcs "third.1.r" =
      ctxNine.funcs "third.1.r" :=
  ⟨(C9_report_finish_first_only ctxNine "greet.0.r" (.int 7) [("third.1.r", .int 8)]
      cfgNine1 rfl rfl).1,
   (C9_report_finish_first_only ctxNine "greet.0.r" (.int 7) [("third.1.r", .int 8)]
      cfgNine1 rfl rfl).2.2 "third.1.r" (by decide)⟩

/- The edge list built by the `setup_dag` index loop equals the list of
consecutive pairs of the input. -/

theorem range_map_getD_zip (x : String) (t : List String) :
    (List.range t.length).map (fun i => ((x :: t).getD i "", t.getD i "")) =
      (x :: t).zip t := by
  induction t generalizing x with
  | nil => rfl
  | cons b t ih =>
      rw [List.length_cons, List.range_succ_eq_map, List.map_cons, List.map_map,
        List.zip_cons_cons]
      congr 1
      have hf : ((fun i => ((x :: b :: t).getD i "", (b :: t).getD i "")) ∘ Nat.succ) =
          (fun i => ((b :: t).getD i "", t.getD i "")) := by
        funext i
        simp [Function.comp, List.getD_cons_succ]
      rw [hf]
      exact ih b

/-- Claim C5: for every ordered key sequence, `setup_dag` builds the graph
whose vertex list is exactly the input and whose edge list is exactly one
edge from each element to its immediate successor — the strict linear
chain `vs.zip vs.tail`, nothing else. -/
theorem C5_setup_dag_linear_chain (vs : List String) :
    (setup_dag vs).vertices = vs ∧ (setup_dag vs).edges = vs.zip vs.tail := by
  refine ⟨rfl, ?_⟩
  cases vs with
  | nil => rfl
  | cons x t =>
      show ((List.range (x :: t).length).drop 1).map
          (fun i => ((x :: t).getD (i - 1) "", (x :: t).getD i "")) = _
      rw [List.length_cons, List.range_succ_eq_map]
      show ((List.map Nat.succ (List.range t.length)).map
          (fun i => ((x :: t).getD (i - 1) "", (x :: t).getD i ""))) = _
      rw [List.map_map]
      have hf : ((fun i => ((x :: t).getD (i - 1) "", (x :: t).getD i "")) ∘ Nat.succ) =
          (fun i => ((x :: t).getD i "", t.getD i "")) := by
        funext i
        simp [Function.comp, List.getD_cons_succ, Nat.succ_sub_one]
      rw [hf]
      exact range_map_getD_zip x t

/- `str(index)` is never the empty string, so the sequence-id check of
`TaskConfig.__init__` always passes for keys generated by `run_tasks`. -/

theorem toDigitsCore_length_ge (b : Nat) :
    ∀ (fuel n : Nat) (ds : List Char), ds.length ≤ (Nat.toDigitsCore b fuel n ds).length := by
  intro fuel
  induction fuel with
  | zero => intro n ds; simp [Nat.toDigitsCore]
  | succ fuel ih =>
      intro n ds
      simp only [Nat.toDigitsCore]
      by_cases h : n / b = 0
      · simp [h]
      · simp only [h, if_false]
        have := ih (n / b) (Nat.digitChar (n % b) :: ds)
        simp only [List.length_cons] at this
        omega

theorem toString_nat_ne_empty (n : Nat) : toString n ≠ "" := by
  show Nat.repr n ≠ ""
  unfold Nat.repr Nat.toDigits
  intro h
  have hlen := congrArg String.length h
  have h1 : (1 : Nat) ≤ (Nat.toDigitsCore 10 (n + 1) n []).length := by
    simp only [Nat.toDigitsCore]
    by_cases h2 : n / 10 = 0
    · simp [h2]
    · simp only [h2, if_false]
      have := toDigitsCore_length_ge 10 n (n / 10) [Nat.digitChar (n % 10)]
      simp only [List.length_cons, List.length_nil] at this
      omega
  rw [show ("" : String).length = 0 from rfl] at hlen
  have : (Nat.toDigitsCore 10 (n + 1) n []).asString.length =
      (Nat.toDigitsCore 10 (n + 1) n []).length := by
    simp [List.asString, String.length]
  omega

/- Step lemmas for the executor and the completion hook. -/

theorem contextGetTask_some (funcs : Dict TaskConfig) (k : String) (c : TaskConfig)
    (hc : funcs k = some c) : contextGetTask funcs k = .ok c := by
  unfold contextGetTask
  rw [hc]

theorem executorExecute_no_render (ctx : ContextData) (k : String) (c : TaskConfig)
    (hc : ctx.funcs k = some c)
    (hbr : (strHasChar c.title lbrace && strHasChar c.title rbrace) = false) :
    executorExecute ctx k = (ctx, c.function.call c.parameters) := by
  unfold executorExecute
  rw [contextGetTask_some _ _ _ hc]
  simp [hbr]

theorem executorExecute_render_ok (ctx : ContextData) (k : String) (c : TaskConfig)
    (t2 : String) (hc : ctx.funcs k = some c)
    (hbr : (strHasChar c.title lbrace && strHasChar c.title rbrace) = true)
    (hfmt : pyFormat c.title (fourFields c) = .ok t2) :
    executorExecute ctx k =
      (contextAddObj ctx (.taskC { c with title := t2 }), c.function.call c.parameters) := by
  unfold executorExecute
  rw [contextGetTask_some _ _ _ hc]
  simp [hbr, hfmt]

theorem executorExecute_render_err (ctx : ContextData) (k : String) (c : TaskConfig)
    (e : PyErr) (hc : ctx.funcs k = some c)
    (hbr : (strHasChar c.title lbrace && strHasChar c.title rbrace) = true)
    (hfmt : pyFormat c.title (fourFields c) = .error e) :
    executorExecute ctx k = (ctx, .error e) := by
  unfold executorExecute
  rw [contextGetTask_some _ _ _ hc]
  simp [hbr, hfmt]

theorem report_finish_singleton (ctx : ContextData) (k : String) (v : PyVal)
    (c : TaskConfig) (hc : ctx.funcs k = some c) :
    report_finish ctx [(k, v)] = .ok (contextAddObj ctx (.taskC { c with result := v })) := by
  simp [report_finish, contextGetTask_some _ _ _ hc]

/- Lemmas about the generated key list. -/

theorem task_key_mk (f : PyFunc) (params : Params) (rid sid title : String) (res : PyVal) :
    ({ function := f, parameters := params, run_id := rid, seq_id := sid,
       title := title, result := res } : TaskConfig).task_key = mkKey f.name sid rid := rfl

theorem genKeys_length (rid : String) :
    ∀ (l : List (PyObj × Params)) (i : Nat), (genKeys rid i l).length = l.length := by
  intro l
  induction l with
  | nil => intro i; rfl
  | cons p rest ih => intro i; simp [genKeys, ih]

theorem genKeys_getD (rid : String) :
    ∀ (l : List (PyObj × Params)) (i j : Nat) (hj : j < l.length),
      (genKeys rid i l).getD j "" =
        mkKey (pyNameD (l.get ⟨j, hj⟩).1) (toString (i + j)) rid := by
  intro l
  induction l with
  | nil => intro i j hj; simp at hj
  | cons p rest ih =>
      intro i j hj
      cases j with
      | zero => simp [genKeys]
      | succ j =>
          have hj2 : j < rest.length := by simpa using Nat.lt_of_succ_lt_succ hj
          show (genKeys rid (i + 1) rest).getD j "" = _
          rw [ih (i + 1) j hj2, show i + 1 + j = i + (j + 1) from by omega]
          rfl

/-- A traversal over a chain of distinct keys whose stored descriptors all
execute cleanly completes every vertex in order, persists each vertex's
result into its descriptor, and touches no other key. -/
theorem dagRunChain_ok :
    ∀ (ks : List String) (ctx : ContextData),
      ks.Nodup →
      (∀ k ∈ ks, ∃ c, ctx.funcs k = some c ∧ c.task_key = k ∧ goodCfg c) →
      (dagRunChain ctx ks).error = Option.none ∧
      (dagRunChain ctx ks).processed = ks ∧
      (∀ k, k ∉ ks → (dagRunChain ctx ks).ctx.funcs k = ctx.funcs k) ∧
      (∀ k ∈ ks, ∃ c v, ctx.funcs k = some c ∧
        c.function.call c.parameters = Except.ok v ∧
        (dagRunChain ctx ks).ctx.funcs k = some { c with result := v }) := by
  intro ks
  induction ks with
  | nil =>
      intro ctx _ _
      exact ⟨rfl, rfl, fun k _ => rfl, fun k hk => absurd hk (List.not_mem_nil k)⟩
  | cons k rest ih =>
      intro ctx hnd hgood
      obtain ⟨c, hc, hkey, hbr, v, hv⟩ := hgood k (List.mem_cons_self k rest)
      rw [List.nodup_cons] at hnd
      obtain ⟨hknotin, hndrest⟩ := hnd
      have hexec : executorExecute ctx k = (ctx, .ok v) := by
        rw [executorExecute_no_render ctx k c hc hbr, hv]
      have hrep : report_finish ctx [(k, v)] =
          .ok (contextAddObj ctx (.taskC { c with result := v })) :=
        report_finish_singleton ctx k v c hc
      set ctx2 := contextAddObj ctx (.taskC { c with result := v }) with hctx2
      have hstep : dagRunChain ctx (k :: rest) =
          { ctx := (dagRunChain ctx2 rest).ctx,
            processed := k :: (dagRunChain ctx2 rest).processed,
            error := (dagRunChain ctx2 rest).error } := by
        simp only [dagRunChain]
        rw [hexec]
        simp only []
        rw [hrep]
      have hctx2k : ctx2.funcs k = some { c with result := v } := by
        rw [hctx2, contextAddObj_task_funcs, task_key_set_result, hkey]
        exact Dict.insert_self _ _ _
      have hctx2ne : ∀ k', k' ≠ k → ctx2.funcs k' = ctx.funcs k' := by
        intro k' hk'
        rw [hctx2, contextAddObj_task_funcs, task_key_set_result, hkey]
        exact Dict.insert_ne _ _ _ _ hk'
      have hgood2 : ∀ k' ∈ rest, ∃ c', ctx2.funcs k' = some c' ∧
          c'.task_key = k' ∧ goodCfg c' := by
        intro k' hk'
        have hne : k' ≠ k := fun h => hknotin (h ▸ hk')
        obtain ⟨c', hc', hkey', hgc'⟩ := hgood k' (List.mem_cons_of_mem k hk')
        exact ⟨c', (hctx2ne k' hne).trans hc', hkey', hgc'⟩
      obtain ⟨e0, p0, fr0, res0⟩ := ih ctx2 hndrest hgood2
      refine ⟨?_, ?_, ?_, ?_⟩
      · rw [hstep]; exact e0
      · rw [hstep]; simpa using p0
      · intro k' hk'
        have hne : k' ≠ k := fun h => hk' (h ▸ List.mem_cons_self k rest)
        have hnr : k' ∉ rest := fun h => hk' (List.mem_cons_of_mem k h)
        rw [hstep]
        show (dagRunChain ctx2 rest).ctx.funcs k' = ctx.funcs k'
        rw [fr0 k' hnr]
        exact hctx2ne k' hne
      · intro k' hk'
        rcases List.mem_cons.mp hk' with hkk | hkr
        · subst hkk
          refine ⟨c, v, hc, hv, ?_⟩
          rw [hstep]
          show (dagRunChain ctx2 rest).ctx.funcs k' = _
          rw [fr0 k' hknotin]
          exact hctx2k
        · obtain ⟨c', v', hc', hv', hfin'⟩ := res0 k' hkr
          have hne : k' ≠ k := fun h => hknotin (h ▸ hkr)
          refine ⟨c', v', (hctx2ne k' hne).symm.trans hc', hv', ?_⟩
          rw [hstep]
          exact hfin'

/-- The descriptor-building loop of `run_tasks` succeeds on a list of good
pairs, produces exactly the generated keys, mutates only the task table,
and (when the generated keys are distinct) stores under each key the
descriptor built from the corresponding pair. -/
theorem buildTaskList_ok (runId : String) :
    ∀ (l : List (PyObj × Params)) (ctx : ContextData) (i : Nat),
      (∀ p ∈ l, goodPair ctx.titles p) →
      ∃ ctx1, buildTaskList ctx runId i l = (ctx1, .ok (genKeys runId i l)) ∧
        ctx1.titles = ctx.titles ∧ ctx1.groups = ctx.groups ∧
        (∀ k, k ∉ genKeys runId i l → ctx1.funcs k = ctx.funcs k) ∧
        ((genKeys runId i l).Nodup →
          ∀ j (hj : j < l.length), ∃ f t,
            (l.get ⟨j, hj⟩).1 = PyObj.func f ∧
            ctx.titles f.name = some t ∧
            ctx1.funcs (mkKey f.name (toString (i + j)) runId) =
              some { function := f, parameters := (l.get ⟨j, hj⟩).2, run_id := runId,
                     seq_id := toString (i + j), title := effTitle t f.name,
                     result := PyVal.none }) := by
  intro l
  induction l with
  | nil =>
      intro ctx i _
      exact ⟨ctx, rfl, rfl, rfl, fun k _ => rfl, fun _ j hj => absurd hj (by simp)⟩
  | cons p rest ih =>
      intro ctx i hgood
      obtain ⟨fn, params⟩ := p
      obtain ⟨f, t, v, hf, ht, hbr, hv⟩ := hgood (fn, params) (List.mem_cons_self _ _)
      simp only at hf
      subst hf
      have hmk : mkTaskConfig ctx (PyObj.func f) params runId (toString i) =
          .ok { function := f, parameters := params, run_id := runId,
                seq_id := toString i, title := effTitle t f.name,
                result := PyVal.none } := by
        simp [mkTaskConfig, contextGetTitle, ht, toString_nat_ne_empty i, effTitle]
      set cfg : TaskConfig :=
        { function := f, parameters := params, run_id := runId, seq_id := toString i,
          title := effTitle t f.name, result := PyVal.none } with hcfg
      set ctx' := contextAddObj ctx (.taskC cfg) with hctx'
      have htitles' : ctx'.titles = ctx.titles := rfl
      have hgoodrest : ∀ q ∈ rest, goodPair ctx'.titles q := by
        rw [htitles']
        exact fun q hq => hgood q (List.mem_cons_of_mem _ hq)
      obtain ⟨ctx1, hbuild, htit, hgrp, hframe, hchar⟩ := ih ctx' (i + 1) hgoodrest
      have hkey0 : cfg.task_key = mkKey f.name (toString i) runId := task_key_mk f params runId _ _ _
      have hgen : genKeys runId i ((PyObj.func f, params) :: rest) =
          mkKey f.name (toString i) runId :: genKeys runId (i + 1) rest := by
        simp [genKeys, pyNameD]
      refine ⟨ctx1, ?_, htit.trans htitles', hgrp.trans rfl, ?_, ?_⟩
      · show buildTaskList ctx runId i ((PyObj.func f, params) :: rest) = _
        simp only [buildTaskList, hmk]
        rw [hgen]
        simp only [← hcfg, ← hctx', hbuild, hkey0]
      · intro k hk
        rw [hgen, List.mem_cons] at hk
        push_neg at hk
        rw [hframe k hk.2, hctx', contextAddObj_task_funcs, hkey0]
        exact Dict.insert_ne _ _ _ _ hk.1
      · intro hnd j hj
        rw [hgen, List.nodup_cons] at hnd
        obtain ⟨h0notin, hndrest⟩ := hnd
        cases j with
        | zero =>
            refine ⟨f, t, rfl, ht, ?_⟩
            rw [Nat.add_zero]
            rw [hframe _ h0notin, hctx', contextAddObj_task_funcs, hkey0]
            have := Dict.insert_self ctx.funcs (mkKey f.name (toString i) runId) cfg
            rw [this, hcfg]
            rfl
        | succ j =>
            have hj2 : j < rest.length := by simpa using Nat.lt_of_succ_lt_succ hj
            obtain ⟨f', t', hfj, htj, hlook⟩ := hchar hndrest j hj2
            refine ⟨f', t', by simpa using hfj, by rw [← htitles']; exact htj, ?_⟩
            rw [show i + (j + 1) = i + 1 + j from by omega]
            simpa using hlook

/-- `run_tasks` on a non-empty list of good pairs with distinct generated
keys returns exactly the generated keys and leaves, for each position,
the descriptor built from that pair with its call's return value written
into the result slot. -/
theorem run_tasks_ok (ctx : ContextData) (l : List (PyObj × Params)) (runId : String)
    (hne : l ≠ []) (hnd : (genKeys runId 0 l).Nodup)
    (hgood : ∀ p ∈ l, goodPair ctx.titles p) :
    (run_tasks ctx l runId).2 = .ok (genKeys runId 0 l) ∧
    (∀ j (hj : j < l.length), ∃ f t v,
       (l.get ⟨j, hj⟩).1 = PyObj.func f ∧
       ctx.titles f.name = some t ∧
       f.call (l.get ⟨j, hj⟩).2 = Except.ok v ∧
       (run_tasks ctx l runId).1.funcs (mkKey f.name (toString j) runId) =
         some { function := f, parameters := (l.get ⟨j, hj⟩).2, run_id := runId,
                seq_id := toString j, title := effTitle t f.name, result := v }) := by
  obtain ⟨ctx1, hbuild, htit, hgrp, hframe, hchar⟩ := buildTaskList_ok runId l ctx 0 hgood
  have hcharnd := hchar hnd
  have hlenkeys : (genKeys runId 0 l).length = l.length := genKeys_length runId l 0
  have hkeysne : genKeys runId 0 l ≠ [] := by
    intro h
    apply hne
    have : l.length = 0 := by rw [← hlenkeys, h]; rfl
    exact List.length_eq_zero.mp this
  have hkeyat : ∀ (j : Nat) (hj : j < l.length) (hjk : j < (genKeys runId 0 l).length)
      (f : PyFunc), (l.get ⟨j, hj⟩).1 = PyObj.func f →
      (genKeys runId 0 l).get ⟨j, hjk⟩ = mkKey f.name (toString j) runId := by
    intro j hj hjk f hfj
    rw [← List.getD_eq_get (genKeys runId 0 l) "" hjk, genKeys_getD runId l 0 j hj, hfj,
      Nat.zero_add]
    rfl
  have hks : ∀ k ∈ genKeys runId 0 l, ∃ c, ctx1.funcs k = some c ∧
      c.task_key = k ∧ goodCfg c := by
    intro k hk
    obtain ⟨⟨j, hjk⟩, hget⟩ := List.mem_iff_get.mp hk
    have hj : j < l.length := hlenkeys ▸ hjk
    obtain ⟨f, t, hfj, htj, hlook⟩ := hcharnd j hj
    obtain ⟨f2, t2, v2, hf2, ht2, hbr2, hv2⟩ :=
      hgood (l.get ⟨j, hj⟩) (List.get_mem l j hj)
    rw [hfj] at hf2
    injection hf2 with hff
    subst hff
    rw [htj] at ht2
    injection ht2 with htt
    subst htt
    have hkeq : k = mkKey f.name (toString j) runId := by
      rw [← hget]
      exact hkeyat j hj hjk f hfj
    subst hkeq
    rw [Nat.zero_add] at hlook
    refine ⟨_, hlook, task_key_mk f _ runId _ _ _, ?_, ⟨v2, hv2⟩⟩
    exact hbr2
  obtain ⟨e0, p0, fr0, res0⟩ := dagRunChain_ok (genKeys runId 0 l) ctx1 hnd hks
  have hrun : run_tasks ctx l runId =
      ((dagRunChain ctx1 (genKeys runId 0 l)).ctx,
       .ok (dagRunChain ctx1 (genKeys runId 0 l)).processed) := by
    simp only [run_tasks, hbuild, List.isEmpty_eq_false.mpr hkeysne, if_false,
      execute_dag, dag_run, setup_dag]
    rw [e0]
    simp
  refine ⟨?_, ?_⟩
  · rw [hrun]
    simp [p0]
  · intro j hj
    obtain ⟨f, t, hfj, htj, hlook⟩ := hcharnd j hj
    rw [Nat.zero_add] at hlook
    have hjk : j < (genKeys runId 0 l).length := hlenkeys ▸ hj
    have hmem : mkKey f.name (toString j) runId ∈ genKeys runId 0 l := by
      rw [← hkeyat j hj hjk f hfj]
      exact List.get_mem _ j hjk
    obtain ⟨c, v, hc1, hcall, hfin⟩ := res0 _ hmem
    have hceq : c = { function := f, parameters := (l.get ⟨j, hj⟩).2, run_id := runId,
                      seq_id := toString j, title := effTitle t f.name,
                      result := PyVal.none } :=
      Option.some.inj (hc1.symm.trans hlook)
    refine ⟨f, t, v, hfj, htj, ?_, ?_⟩
    · rw [hceq] at hcall
      exact hcall
    · rw [hrun]
      rw [hceq] at hfin
      exact hfin

/-- One successful traversal step of the chain: execute the head vertex,
report its singleton batch, continue with the resulting scope. -/
theorem dagRunChain_cons_step (ctx ctxa ctxb : ContextData) (k : String)
    (rest : List String) (v : PyVal)
    (hexec : executorExecute ctx k = (ctxa, .ok v))
    (hrep : report_finish ctxa [(k, v)] = .ok ctxb) :
    dagRunChain ctx (k :: rest) =
      { ctx := (dagRunChain ctxb rest).ctx,
        processed := k :: (dagRunChain ctxb rest).processed,
        error := (dagRunChain ctxb rest).error } := by
  simp only [dagRunChain]
  rw [hexec]
  simp only []
  rw [hrep]

/-- A failing traversal step aborts the whole chain with that error and
dispatches nothing further. -/
theorem dagRunChain_cons_err (ctx ctxa : ContextData) (k : String)
    (rest : List String) (e : PyErr)
    (hexec : executorExecute ctx k = (ctxa, .error e)) :
    dagRunChain ctx (k :: rest) = { ctx := ctxa, processed := [], error := some e } := by
  simp only [dagRunChain]
  rw [hexec]

/-- Claim C3: for every non-empty list of `(callable, parameters)` pairs
whose generated keys are fresh (pairwise distinct and absent from the
scope), and whose callables are registered tasks that execute cleanly,
`run_tasks` returns exactly one key per pair, in input order, with key
`j` derived from pair `j`'s function name and sequence id `str(j)`;
for the empty list `run_tasks` fails with a `TypeError` instead of
returning. -/
theorem C3_run_tasks_keys (ctx : ContextData) (l : List (PyObj × Params)) (runId : String)
    (hne : l ≠ [])
    (hfresh : (genKeys runId 0 l).Nodup ∧ ∀ k ∈ genKeys runId 0 l, ctx.funcs k = Option.none)
    (hgood : ∀ p ∈ l, goodPair ctx.titles p) :
    (run_tasks ctx l runId).2 = .ok (genKeys runId 0 l) ∧
    (genKeys runId 0 l).length = l.length ∧
    (∀ j (hj : j < l.length),
       (genKeys runId 0 l).getD j "" = mkKey (pyNameD (l.get ⟨j, hj⟩).1) (toString j) runId) ∧
    (∀ (ctx2 : ContextData) (rid2 : String),
       (run_tasks ctx2 [] rid2).2 = .error (.typeError "fn_list does not contain any task.")) := by
  refine ⟨(run_tasks_ok ctx l runId hne hfresh.1 hgood).1, genKeys_length runId l 0, ?_, ?_⟩
  · intro j hj
    rw [genKeys_getD runId l 0 j hj, Nat.zero_add]
  · intro ctx2 rid2
    rfl

/-- Claim C4: when the callable of the second vertex of a run raises, the
run aborts — the traversal stops with only the first vertex processed (no
later vertex of the chain is dispatched), the first vertex's result stays
persisted in the registry, every other key of the registry is untouched,
and the callable's own error is what reaches the caller, unwrapped. -/
theorem C4_abort_on_failure (ctx : ContextData) (k1 k2 : String) (rest : List String)
    (c1 c2 : TaskConfig) (v1 : PyVal) (e : PyErr)
    (h12 : k1 ≠ k2)
    (hc1 : ctx.funcs k1 = some c1) (hk1 : c1.task_key = k1)
    (hbr1 : (strHasChar c1.title lbrace && strHasChar c1.title rbrace) = false)
    (hv1 : c1.function.call c1.parameters = Except.ok v1)
    (hc2 : ctx.funcs k2 = some c2)
    (hbr2 : (strHasChar c2.title lbrace && strHasChar c2.title rbrace) = false)
    (he : c2.function.call c2.parameters = Except.error e) :
    (dag_run (setup_dag (k1 :: k2 :: rest)) ctx).error = some e ∧
    (dag_run (setup_dag (k1 :: k2 :: rest)) ctx).processed = [k1] ∧
    (dag_run (setup_dag (k1 :: k2 :: rest)) ctx).ctx.funcs k1 = some { c1 with result := v1 } ∧
    (∀ k, k ≠ k1 → (dag_run (setup_dag (k1 :: k2 :: rest)) ctx).ctx.funcs k = ctx.funcs k) := by
  have hexec1 : executorExecute ctx k1 = (ctx, .ok v1) := by
    rw [executorExecute_no_render ctx k1 c1 hc1 hbr1, hv1]
  have hrep1 : report_finish ctx [(k1, v1)] =
      .ok (contextAddObj ctx (.taskC { c1 with result := v1 })) :=
    report_finish_singleton ctx k1 v1 c1 hc1
  set ctx2 := contextAddObj ctx (.taskC { c1 with result := v1 }) with hctx2def
  have hctx2k1 : ctx2.funcs k1 = some { c1 with result := v1 } := by
    rw [hctx2def, contextAddObj_task_funcs, task_key_set_result, hk1]
    exact Dict.insert_self _ _ _
  have hctx2ne : ∀ k, k ≠ k1 → ctx2.funcs k = ctx.funcs k := by
    intro k hk
    rw [hctx2def, contextAddObj_task_funcs, task_key_set_result, hk1]
    exact Dict.insert_ne _ _ _ _ hk
  have hexec2 : executorExecute ctx2 k2 = (ctx2, .error e) := by
    rw [executorExecute_no_render ctx2 k2 c2 ((hctx2ne k2 (Ne.symm h12)).trans hc2) hbr2, he]
  have hrun : dag_run (setup_dag (k1 :: k2 :: rest)) ctx =
      { ctx := ctx2, processed := [k1], error := some e } := by
    show dagRunChain ctx (k1 :: k2 :: rest) = _
    rw [dagRunChain_cons_step ctx ctx ctx2 k1 (k2 :: rest) v1 hexec1 hrep1,
      dagRunChain_cons_err ctx2 ctx2 k2 rest e hexec2]
  rw [hrun]
  exact ⟨rfl, rfl, hctx2k1, hctx2ne⟩

/-- Claim C7: at execution time a title containing placeholder braces is
rendered from exactly the four recognised fields of that task's
descriptor (`fn_key`, `fn_name`, `fn_run_id`, `fn_seq_id`) and the
rendered title is stored back — deterministically, being a function of
the descriptor; if rendering fails (in particular `KeyError` for a
placeholder naming anything else), that task's execution fails with that
error, and in a run the failure surfaces to the caller at that task: the
run aborts with earlier tasks' persisted results intact. -/
theorem C7_title_render (ctx : ContextData) (k : String) (c : TaskConfig)
    (hc : ctx.funcs k = some c) (hkey : c.task_key = k)
    (hbr : (strHasChar c.title lbrace && strHasChar c.title rbrace) = true) :
    (∀ t2, pyFormat c.title (fourFields c) = .ok t2 →
       executorExecute ctx k =
         (contextAddObj ctx (.taskC { c with title := t2 }),
          c.function.call c.parameters)) ∧
    (∀ e, pyFormat c.title (fourFields c) = .error e →
       executorExecute ctx k = (ctx, .error e) ∧
       (∀ (k1 : String) (c1 : TaskConfig) (v1 : PyVal) (rest : List String),
          k1 ≠ k → ctx.funcs k1 = some c1 → c1.task_key = k1 →
          (strHasChar c1.title lbrace && strHasChar c1.title rbrace) = false →
          c1.function.call c1.parameters = Except.ok v1 →
          (dag_run (setup_dag (k1 :: k :: rest)) ctx).error = some e ∧
          (dag_run (setup_dag (k1 :: k :: rest)) ctx).processed = [k1] ∧
          (dag_run (setup_dag (k1 :: k :: rest)) ctx).ctx.funcs k1 =
            some { c1 with result := v1 })) := by
  constructor
  · intro t2 hfmt
    exact executorExecute_render_ok ctx k c t2 hc hbr hfmt
  · intro e hfmt
    constructor
    · exact executorExecute_render_err ctx k c e hc hbr hfmt
    · intro k1 c1 v1 rest h1k hc1 hkey1 hbr1 hv1
      have hexec1 : executorExecute ctx k1 = (ctx, .ok v1) := by
        rw [executorExecute_no_render ctx k1 c1 hc1 hbr1, hv1]
      have hrep1 : report_finish ctx [(k1, v1)] =
          .ok (contextAddObj ctx (.taskC { c1 with result := v1 })) :=
        report_finish_singleton ctx k1 v1 c1 hc1
      set ctx2 := contextAddObj ctx (.taskC { c1 with result := v1 }) with hctx2def
      have hctx2k1 : ctx2.funcs k1 = some { c1 with result := v1 } := by
        rw [hctx2def, contextAddObj_task_funcs, task_key_set_result, hkey1]
        exact Dict.insert_self _ _ _
      have hctx2k : ctx2.funcs k = some c := by
        rw [hctx2def, contextAddObj_task_funcs, task_key_set_result, hkey1]
        exact (Dict.insert_ne _ _ _ _ (Ne.symm h1k)).trans hc
      have hexec2 : executorExecute ctx2 k = (ctx2, .error e) :=
        executorExecute_render_err ctx2 k c e hctx2k hbr hfmt
      have hrun : dag_run (setup_dag (k1 :: k :: rest)) ctx =
          { ctx := ctx2, processed := [k1], error := some e } := by
        show dagRunChain ctx (k1 :: k :: rest) = _
        rw [dagRunChain_cons_step ctx ctx ctx2 k1 (k :: rest) v1 hexec1 hrep1,
          dagRunChain_cons_err ctx2 ctx2 k rest e hexec2]
      rw [hrun]
      exact ⟨rfl, rfl, hctx2k1⟩

/- `zip_longest` with a parameter list no longer than the callable list:
one pair per callable, missing parameter entries defaulting to the empty
mapping. -/

theorem zipLongestGroup_length_short :
    ∀ (fns : List PyObj) (ps : List Params), ps.length ≤ fns.length →
      (zipLongestGroup fns ps).length = fns.length := by
  intro fns
  induction fns with
  | nil =>
      intro ps h
      cases ps with
      | nil => rfl
      | cons p ps' => simp at h
  | cons f ftl ih =>
      intro ps h
      cases ps with
      | nil => simp [zipLongestGroup, ih [] (by simp)]
      | cons p ps' =>
          simp only [zipLongestGroup, List.length_cons]
          rw [ih ps' (by simpa using h)]

theorem zipLongestGroup_getD_short :
    ∀ (fns : List PyObj) (ps : List Params) (j : Nat), ps.length ≤ fns.length →
      j < fns.length →
      (zipLongestGroup fns ps).getD j (PyObj.dict [], []) =
        (fns.getD j (PyObj.dict []), ps.getD j []) := by
  intro fns
  induction fns with
  | nil => intro ps j _ hj; simp at hj
  | cons f ftl ih =>
      intro ps j hle hj
      cases ps with
      | nil =>
          cases j with
          | zero => rfl
          | succ j =>
              show (zipLongestGroup ftl []).getD j (PyObj.dict [], []) = _
              rw [ih [] j (by simp) (by simpa using Nat.lt_of_succ_lt_succ hj)]
              simp
      | cons p ps' =>
          cases j with
          | zero => rfl
          | succ j =>
              show (zipLongestGroup ftl ps').getD j (PyObj.dict [], []) = _
              rw [ih ps' j (by simpa using hle) (by simpa using Nat.lt_of_succ_lt_succ hj)]
              simp

theorem zipLongestGroup_get_short (fns : List PyObj) (ps : List Params) (j : Nat)
    (hj : j < fns.length) (hz : j < (zipLongestGroup fns ps).length)
    (hle : ps.length ≤ fns.length) :
    (zipLongestGroup fns ps).get ⟨j, hz⟩ = (fns.get ⟨j, hj⟩, ps.getD j []) := by
  rw [← List.getD_eq_get (zipLongestGroup fns ps) (PyObj.dict [], []) hz,
    zipLongestGroup_getD_short fns ps j hle hj,
    List.getD_eq_get fns (PyObj.dict []) hj]

/-- Claim C8: for a registered group of M callables (all registered tasks
that execute cleanly) and a parameter list of length K < M, `run_group`
does not fail on the missing entries: it executes all M members and
returns M keys; each position `j` gets descriptor parameters `ps[j]` for
`j < K` and the empty mapping for `j ≥ K` (still executed), and every
stored descriptor has run id equal to the group id and sequence id equal
to its position index; for an unregistered group id, `run_group` fails
with a not-found `RuntimeError`. -/
theorem C8_run_group_padding (ctx : ContextData) (gid : String)
    (fns : List PyObj) (ps : List Params)
    (hg : ctx.groups gid = some fns)
    (hlen : ps.length < fns.length)
    (hnd : (genKeys gid 0 (zipLongestGroup fns ps)).Nodup)
    (hgood : ∀ j (hj : j < fns.length), ∃ f t v, fns.get ⟨j, hj⟩ = PyObj.func f ∧
       ctx.titles f.name = some t ∧
       (strHasChar (effTitle t f.name) lbrace && strHasChar (effTitle t f.name) rbrace) = false ∧
       f.call (ps.getD j []) = Except.ok v) :
    (run_group ctx gid ps).2 = .ok (genKeys gid 0 (zipLongestGroup fns ps)) ∧
    (genKeys gid 0 (zipLongestGroup fns ps)).length = fns.length ∧
    (∀ j (hj : j < fns.length), ∃ f cfg,
       fns.get ⟨j, hj⟩ = PyObj.func f ∧
       (run_group ctx gid ps).1.funcs (mkKey f.name (toString j) gid) = some cfg ∧
       cfg.run_id = gid ∧ cfg.seq_id = toString j ∧ cfg.parameters = ps.getD j [] ∧
       ∃ v, f.call (ps.getD j []) = Except.ok v ∧ cfg.result = v) ∧
    (∀ gid2, ctx.groups gid2 = Option.none →
       (run_group ctx gid2 ps).2 =
         .error (.runtimeError ("group " ++ gid2 ++ " is not found."))) := by
  have hle : ps.length ≤ fns.length := Nat.le_of_lt hlen
  have hzl : (zipLongestGroup fns ps).length = fns.length :=
    zipLongestGroup_length_short fns ps hle
  have hrg : run_group ctx gid ps = run_tasks ctx (zipLongestGroup fns ps) gid := by
    simp [run_group, hg]
  have hne : zipLongestGroup fns ps ≠ [] := by
    intro h
    have : fns.length = 0 := by rw [← hzl, h]; rfl
    omega
  have hgood2 : ∀ p ∈ zipLongestGroup fns ps, goodPair ctx.titles p := by
    intro p hp
    obtain ⟨⟨j, hjz⟩, hget⟩ := List.mem_iff_get.mp hp
    have hj : j < fns.length := hzl ▸ hjz
    rw [zipLongestGroup_get_short fns ps j hj hjz hle] at hget
    obtain ⟨f, t, v, hf, ht, hbr, hv⟩ := hgood j hj
    refine ⟨f, t, v, ?_, ht, hbr, ?_⟩
    · rw [← hget]; exact hf
    · rw [← hget]; exact hv
  obtain ⟨hkeys, hstate⟩ := run_tasks_ok ctx (zipLongestGroup fns ps) gid hne hnd hgood2
  refine ⟨by rw [hrg]; exact hkeys,
    (genKeys_length gid (zipLongestGroup fns ps) 0).trans hzl, ?_, ?_⟩
  · intro j hj
    have hjz : j < (zipLongestGroup fns ps).length := hzl ▸ hj
    obtain ⟨f', t, v, hf', ht, hv, hfin⟩ := hstate j hjz
    have hgj := zipLongestGroup_get_short fns ps j hj hjz hle
    rw [hgj] at hf' hv hfin
    refine ⟨f', { function := f', parameters := ps.getD j [], run_id := gid,
                  seq_id := toString j, title := effTitle t f'.name, result := v },
            hf', ?_, rfl, rfl, rfl, v, hv, rfl⟩
    rw [hrg]
    exact hfin
  · intro gid2 hg2
    simp [run_group, hg2]

/-- Core of claim C10: when the parameter list is strictly longer than the
callable list, the pair list `zip_longest` builds pads the callable side
with the empty dict, and the descriptor-building loop fails on the first
padded pair with an `AttributeError` (a dict has no `__name__`) — before
any execution, whatever the callables would have returned. -/
theorem buildTaskList_surplus_err :
    ∀ (fns : List PyObj) (ctx : ContextData) (ps : List Params) (rid : String) (i : Nat),
      fns.length < ps.length →
      (∀ p ∈ fns, buildable ctx.titles p) →
      (buildTaskList ctx rid i (zipLongestGroup fns ps)).2 =
        .error (.attributeError "dict object has no attribute __name__") := by
  intro fns
  induction fns with
  | nil =>
      intro ctx ps rid i hlen _
      cases ps with
      | nil => simp at hlen
      | cons p ps' =>
          show (buildTaskList ctx rid i ((PyObj.dict [], p) :: zipLongestGroup [] ps')).2 = _
          have hmk : mkTaskConfig ctx (PyObj.dict []) p rid (toString i) =
              .error (.attributeError "dict object has no attribute __name__") := by
            simp [mkTaskConfig, toString_nat_ne_empty i]
          simp only [buildTaskList, hmk]
  | cons fhd ftl ih =>
      intro ctx ps rid i hlen hb
      cases ps with
      | nil => simp at hlen
      | cons p ps' =>
          obtain ⟨f, t, hf, ht⟩ := hb fhd (List.mem_cons_self _ _)
          subst hf
          show (buildTaskList ctx rid i ((PyObj.func f, p) :: zipLongestGroup ftl ps')).2 = _
          set cfg : TaskConfig :=
            { function := f, parameters := p, run_id := rid, seq_id := toString i,
              title := effTitle t f.name, result := PyVal.none } with hcfg
          have hmk : mkTaskConfig ctx (PyObj.func f) p rid (toString i) = .ok cfg := by
            simp [mkTaskConfig, contextGetTitle, ht, toString_nat_ne_empty i, effTitle, hcfg]
          set ctx1 := contextAddObj ctx (.taskC cfg)
          have ihh := ih ctx1 ps' rid (i + 1)
            (by simpa using Nat.lt_of_succ_lt_succ hlen)
            (by intro q hq; exact hb q (List.mem_cons_of_mem _ hq))
          simp only [buildTaskList, hmk]
          rcases hq : buildTaskList ctx1 rid (i + 1) (zipLongestGroup ftl ps') with ⟨ctx2, res⟩
          rw [hq] at ihh
          cases res with
          | error e => simpa using ihh
          | ok ks => simp at ihh

/-- Claim C10: for a registered group of M callables (each a registered
task), calling `run_group` with a parameter list strictly longer than M
raises an error before any task runs: `zip_longest` pads the callable
side of the extra pairs with an empty dict, whose missing `__name__`
fails descriptor construction with an `AttributeError` — the surplus
parameter mappings are not silently ignored or truncated.  No hypothesis
is made about what any callable would return: the error arises during
descriptor building, before execution starts. -/
theorem C10_surplus_params_error (ctx : ContextData) (gid : String)
    (fns : List PyObj) (ps : List Params)
    (hg : ctx.groups gid = some fns)
    (hlen : fns.length < ps.length)
    (hb : ∀ p ∈ fns, buildable ctx.titles p) :
    (run_group ctx gid ps).2 =
      .error (.attributeError "dict object has no attribute __name__") := by
  have hcore := buildTaskList_surplus_err fns ctx ps gid 0 hlen hb
  rcases hq : buildTaskList ctx gid 0 (zipLongestGroup fns ps) with ⟨ctx1, res⟩
  rw [hq] at hcore
  have hres : res = .error (.attributeError "dict object has no attribute __name__") := hcore
  subst hres
  simp [run_group, hg, run_tasks, hq]

/- Witnesses: each claim theorem with hypotheses, applied at a concrete
input with every hypothesis discharged by evaluation. -/

theorem C3_witness :
    (run_tasks ctxThree [(.func fGreet, []), (.func fThird, [])] "").2 =
      .ok ["greet.0", "third.1"] := by
  have h := C3_run_tasks_keys ctxThree [(.func fGreet, []), (.func fThird, [])] ""
    (by simp)
    ⟨by decide, fun k _ => rfl⟩
    (by
      intro p hp
      simp only [List.mem_cons, List.not_mem_nil, or_false] at hp
      rcases hp with h1 | h1
      · subst h1
        exact ⟨fGreet, "Greet", .str "hi", rfl, rfl, by decide, rfl⟩
      · subst h1
        exact ⟨fThird, "Third", .int 3, rfl, rfl, by decide, rfl⟩)
  exact h.1

theorem C4_witness :
    (dag_run (setup_dag ["greet.0.r", "shout.1.r", "third.2.r"]) ctxRun).error =
      some (.valueError "empty name") ∧
    (dag_run (setup_dag ["greet.0.r", "shout.1.r", "third.2.r"]) ctxRun).processed =
      ["greet.0.r"] ∧
    (dag_run (setup_dag ["greet.0.r", "shout.1.r", "third.2.r"]) ctxRun).ctx.funcs "greet.0.r" =
      some { cfgRun1 with result := .str "hi" } ∧
    (dag_run (setup_dag ["greet.0.r", "shout.1.r", "third.2.r"]) ctxRun).ctx.funcs "third.2.r" =
      ctxRun.funcs "third.2.r" := by
  have h := C4_abort_on_failure ctxRun "greet.0.r" "shout.1.r" ["third.2.r"]
    cfgRun1 cfgRun2 (.str "hi") (.valueError "empty name")
    (by decide) rfl rfl (by decide) rfl rfl (by decide) rfl
  exact ⟨h.1, h.2.1, h.2.2.1, h.2.2.2 "third.2.r" (by decide)⟩

theorem C7_witness :
    (dag_run (setup_dag ["greet.0", "ft.1"]) ctxRender).error = some (.keyError "bogus") ∧
    (dag_run (setup_dag ["greet.0", "ft.1"]) ctxRender).processed = ["greet.0"] ∧
    (dag_run (setup_dag ["greet.0", "ft.1"]) ctxRender).ctx.funcs "greet.0" =
      some { cfgChainA with result := .str "hi" } := by
  have h := C7_title_render ctxRender "ft.1" cfgRenderBad rfl rfl (by decide)
  have h2 := (h.2 (.keyError "bogus") rfl).2 "greet.0" cfgChainA (.str "hi") []
    (by decide) rfl rfl (by decide) rfl
  exact h2

theorem C8_witness :
    (run_group ctxGroup "g1" [[("x", PyVal.int 1)]]).2 =
      .ok ["greet.0.g1", "third.1.g1"] := by
  have h := C8_run_group_padding ctxGroup "g1" [.func fGreet, .func fThird]
    [[("x", PyVal.int 1)]] rfl (by decide) (by decide)
    (by
      intro j hj
      match j, hj with
      | 0, _ => exact ⟨fGreet, "Greet", .str "hi", rfl, rfl, by decide, rfl⟩
      | 1, _ => exact ⟨fThird, "Third", .int 3, rfl, rfl, by decide, rfl⟩)
  exact h.1

theorem C10_witness :
    (run_group ctxGroup "g1" [[], [], []]).2 =
      .error (.attributeError "dict object has no attribute __name__") := by
  have h := C10_surplus_params_error ctxGroup "g1" [.func fGreet, .func fThird]
    [[], [], []] rfl (by decide)
    (by
      intro p hp
      simp only [List.mem_cons, List.not_mem_nil, or_false] at hp
      rcases hp with h1 | h1
      · subst h1
        exact ⟨fGreet, "Greet", rfl, rfl⟩
      · subst h1
        exact ⟨fThird, "Third", rfl, rfl⟩)
  exact h
